import Mathlib

/-!
# Verification of the load-list completeness / tier-gating pipeline

Shallow embedding of the core data-aggregation and tier-gating code of the
load-list repository (`scripts/generate_load_list.py`,
`scripts/load_calculations.py`, `scripts/extract_duty_points.py`,
`scripts/mcc_aggregation.py`).

Python scalar values that flow through the load dicts are modelled by
`PyVal` (`None`, `bool`, numbers as `ℚ`, `str`), with Python's `==`
(numeric cross-type equality between `bool` and numbers) as `pyEq` and
Python truthiness as `pyTruthy`.  Python's `round` (banker's rounding,
half to even) is `rndHE`/`roundQ`.  Floating-point arithmetic is
idealised as exact rational (or real, where the source uses `sqrt`/`**`)
arithmetic.
-/

namespace LoadList

/-- A Python scalar value as it appears in the load/metadata dicts. -/
inductive PyVal where
  | vNone
  | vBool (b : Bool)
  | vNum (q : ℚ)
  | vStr (s : String)
  deriving DecidableEq, Repr

/-- Numeric view of a Python value: `bool` is an `int` subclass, so
`False == 0` and `True == 1`. -/
def pyNumVal : PyVal → Option ℚ
  | .vBool b => some (if b then 1 else 0)
  | .vNum q => some q
  | _ => none

/-- Python `==` on the scalar values above: numbers (including `bool`)
compare numerically, strings compare as strings, `None` equals only
`None`, and any other cross-type comparison is `False`. -/
def pyEq (a b : PyVal) : Bool :=
  match a, b with
  | .vNone, .vNone => true
  | .vStr s, .vStr t => s == t
  | a, b =>
    match pyNumVal a, pyNumVal b with
    | some x, some y => x == y
    | _, _ => false

/-- Python truthiness of a scalar value. -/
def pyTruthy : PyVal → Bool
  | .vNone => false
  | .vBool b => b
  | .vNum q => q != 0
  | .vStr s => s != ""

/-- `val is not None`. -/
def isNotNone : PyVal → Bool
  | .vNone => false
  | _ => true

/-- The presence test of `calculate_load_completeness`:
`val is not None and val != "" and val != 0`. -/
def pyPresent (v : PyVal) : Bool :=
  isNotNone v && !pyEq v (.vStr "") && !pyEq v (.vNum 0)

/-- Python `round` to an integer: round half to even (banker's rounding),
on the idealised exact value. -/
def rndHE (x : ℚ) : ℤ :=
  let f : ℤ := ⌊x⌋
  let r : ℚ := x - f
  if r < 1/2 then f
  else if 1/2 < r then f + 1
  else if f % 2 = 0 then f else f + 1

/-- Python `round(x, n)` for `n` decimal digits. -/
def roundQ (n : ℕ) (x : ℚ) : ℚ :=
  (rndHE (x * 10 ^ n) : ℚ) / 10 ^ n

/-! ## Tier tables and load completeness (`generate_load_list.py`) -/

/-- A load dict, viewed through `load.get(field)`: absent keys yield
`None` (`vNone`). -/
def Load : Type := String → PyVal

/-- `TIER_REQUIRED_FIELDS[tier]["load"]`. -/
def tierRequiredLoad : ℕ → List String
  | 1 => ["equipment_tag", "rated_kw", "demand_kw"]
  | 2 => ["equipment_tag", "rated_kw", "flc_table_a", "feeder_type", "mcc_panel"]
  | 3 => ["equipment_tag", "rated_kw", "flc_table_a", "fla_nameplate_a",
          "feeder_type", "mcc_panel", "efficiency_pct", "service_factor"]
  | _ => []

/-- `TIER_REQUIRED_FIELDS[tier]["percentage"]`. -/
def tierPercentage : ℕ → ℚ
  | 1 => 100
  | 2 => 80
  | 3 => 100
  | _ => 0

/-- Result of `calculate_load_completeness`. -/
structure LoadCompleteness where
  complete : Bool
  completeness_pct : ℚ
  present_fields : List String
  missing_fields : List String
  deriving DecidableEq, Repr

/-- `calculate_load_completeness(load, tier)`: the loop over the required
fields appends each field to `present` or `missing`, which is an ordered
partition, i.e. a pair of filters. -/
def calcLoadCompleteness (load : Load) (tier : ℕ) : LoadCompleteness :=
  let required := tierRequiredLoad tier
  let present := required.filter (fun f => pyPresent (load f))
  let missing := required.filter (fun f => !pyPresent (load f))
  { complete := missing.isEmpty
    completeness_pct :=
      roundQ 1 (if required.isEmpty then 100 else (present.length : ℚ) / required.length * 100)
    present_fields := present
    missing_fields := missing }

/-- The two metadata keys `calculate_tier_eligibility` reads (each absent
or holding an arbitrary Python value). -/
structure Metadata where
  fault_current_source : Option PyVal := none
  cable_lengths_verified : Option PyVal := none

/-- `metadata.get("fault_current_source") != "verified"` fails the Tier-3
gate; this is the passing condition. -/
def fcsVerified (md : Metadata) : Bool :=
  match md.fault_current_source with
  | some v => pyEq v (.vStr "verified")
  | none => false

/-- `not metadata.get("cable_lengths_verified", False)` fails the Tier-3
gate; this is the passing condition. -/
def cableVerified (md : Metadata) : Bool :=
  pyTruthy (md.cable_lengths_verified.getD (.vBool false))

/-- `complete_count` for a tier: `sum(1 for r in tier_results[tier] if r["complete"])`. -/
def tierCompleteCount (loads : List Load) (tier : ℕ) : ℕ :=
  loads.countP (fun l => (calcLoadCompleteness l tier).complete)

/-- `complete_pct = (complete_count / len(loads) * 100) if loads else 0`. -/
def tierCompletePct (loads : List Load) (tier : ℕ) : ℚ :=
  if loads.length = 0 then 0
  else (tierCompleteCount loads tier : ℚ) / loads.length * 100

/-- Result of `calculate_tier_eligibility` (the fields the claims are
about; `tier_gates` is split into the three booleans). -/
structure TierEligibility where
  eligible_tier : ℕ
  tier_name : String
  overall_completeness_pct : ℚ
  gate1 : Bool
  gate2 : Bool
  gate3 : Bool
  tier2_complete_loads : ℕ
  total_loads : ℕ

/-- `calculate_tier_eligibility(loads, metadata)`: per-tier percentage
gates, the Tier-3 metadata verification check (run only when the Tier-3
percentage gate passed, but a failed metadata check clears the gate, so
the net gate is the conjunction), and `3 if gates[3] else 2 if gates[2]
else 1`. -/
def calcTierEligibility (loads : List Load) (md : Metadata) : TierEligibility :=
  if loads.isEmpty then
    { eligible_tier := 1, tier_name := "Load Study", overall_completeness_pct := 0,
      gate1 := true, gate2 := false, gate3 := false,
      tier2_complete_loads := 0, total_loads := 0 }
  else
    let g1 := decide (tierCompletePct loads 1 ≥ tierPercentage 1)
    let g2 := decide (tierCompletePct loads 2 ≥ tierPercentage 2)
    let g3 := decide (tierCompletePct loads 3 ≥ tierPercentage 3)
      && fcsVerified md && cableVerified md
    { eligible_tier := if g3 then 3 else if g2 then 2 else 1
      tier_name :=
        if g3 then "Code-Compliant" else if g2 then "Preliminary Schedule" else "Load Study"
      overall_completeness_pct :=
        roundQ 1 (((loads.map fun l => (calcLoadCompleteness l 2).completeness_pct).sum)
          / loads.length)
      gate1 := g1, gate2 := g2, gate3 := g3
      tier2_complete_loads := tierCompleteCount loads 2
      total_loads := loads.length }

/-! ### Helper lemmas about completeness -/

theorem complete_iff_all_present (load : Load) (tier : ℕ) :
    (calcLoadCompleteness load tier).complete = true ↔
      ∀ f ∈ tierRequiredLoad tier, pyPresent (load f) = true := by
  simp [calcLoadCompleteness, List.isEmpty_iff, List.filter_eq_nil_iff]

theorem mem_missing_iff (load : Load) (tier : ℕ) (f : String) :
    f ∈ (calcLoadCompleteness load tier).missing_fields ↔
      f ∈ tierRequiredLoad tier ∧ ¬ pyPresent (load f) = true := by
  simp [calcLoadCompleteness, List.mem_filter]

theorem mem_present_iff (load : Load) (tier : ℕ) (f : String) :
    f ∈ (calcLoadCompleteness load tier).present_fields ↔
      f ∈ tierRequiredLoad tier ∧ pyPresent (load f) = true := by
  simp [calcLoadCompleteness, List.mem_filter]

theorem pyPresent_eq_false_iff (v : PyVal) :
    pyPresent v = false ↔
      (v = .vNone ∨ v = .vStr "" ∨ pyEq v (.vNum 0) = true) := by
  cases v with
  | vNone => decide
  | vBool b => cases b <;> decide
  | vNum q => simp [pyPresent, pyEq, pyNumVal, isNotNone]
  | vStr s => simp [pyPresent, pyEq, pyNumVal, isNotNone]

/-- The claim-side formulation of "all Tier-2 required fields populated". -/
def tier2FullyPopulated (l : Load) : Bool :=
  (tierRequiredLoad 2).all fun f => pyPresent (l f)

theorem complete2_iff (l : Load) :
    (calcLoadCompleteness l 2).complete = true ↔ tier2FullyPopulated l = true := by
  rw [complete_iff_all_present]
  exact List.all_eq_true.symm

theorem tierPercentage_one : tierPercentage 1 = 100 := rfl

theorem tierPercentage_two : tierPercentage 2 = 80 := rfl

theorem tierPercentage_three : tierPercentage 3 = 100 := rfl

theorem tier2_required_subset_tier3 : ∀ f ∈ tierRequiredLoad 2, f ∈ tierRequiredLoad 3 := by
  intro f hf
  fin_cases hf <;> simp [tierRequiredLoad]

theorem tier3_complete_imp_tier2 (l : Load) :
    (calcLoadCompleteness l 3).complete = true →
      (calcLoadCompleteness l 2).complete = true := by
  rw [complete_iff_all_present, complete_iff_all_present]
  intro h f hf
  exact h f (tier2_required_subset_tier3 f hf)

/-! ### Percentage arithmetic -/

theorem le_pct (c n : ℕ) (hn : n ≠ 0) (t : ℚ) (h : t * n ≤ 100 * c) :
    t ≤ (c : ℚ) / n * 100 := by
  have hnpos : (0 : ℚ) < n := by exact_mod_cast Nat.pos_of_ne_zero hn
  rw [div_mul_eq_mul_div, le_div_iff₀ hnpos]
  linarith

theorem pct_ge_100_iff (c n : ℕ) (hn : n ≠ 0) :
    100 ≤ (c : ℚ) / n * 100 ↔ n ≤ c := by
  have hnpos : (0 : ℚ) < n := by exact_mod_cast Nat.pos_of_ne_zero hn
  rw [div_mul_eq_mul_div, le_div_iff₀ hnpos]
  constructor
  · intro h
    have : (n : ℚ) ≤ c := by linarith
    exact_mod_cast this
  · intro h
    have : (n : ℚ) ≤ c := by exact_mod_cast h
    linarith

theorem isEmpty_false_of_ne_nil {α : Type} {l : List α} (h : l ≠ []) :
    l.isEmpty = false := by
  cases l with
  | nil => exact absurd rfl h
  | cons a t => rfl

/-! ## C1 / C3 / C4 theorems -/

/-- **C1.** For every non-empty load list where at least 80% of the loads
have all five Tier-2 required fields non-null, non-empty and non-zero,
and the metadata does not pass the fault-current-verified check or does
not pass the cable-lengths-verified check, `calculate_tier_eligibility`
returns `eligible_tier == 2` exactly.  In general the eligible tier is
the highest of the independently evaluated gates 3 and 2, with tier 1 as
the unconditional floor, and gate 3 implies gate 2 (its required fields
are a superset at a higher threshold). -/
theorem tier_eligibility_c1 :
    (∀ (loads : List Load) (md : Metadata),
        loads ≠ [] →
        4 * loads.length ≤ 5 * loads.countP tier2FullyPopulated →
        (fcsVerified md = false ∨ cableVerified md = false) →
        (calcTierEligibility loads md).eligible_tier = 2)
    ∧ (∀ (loads : List Load) (md : Metadata), loads ≠ [] →
        ((calcTierEligibility loads md).eligible_tier = 3 ↔
            (calcTierEligibility loads md).gate3 = true)
        ∧ ((calcTierEligibility loads md).eligible_tier = 2 ↔
            ((calcTierEligibility loads md).gate3 = false ∧
              (calcTierEligibility loads md).gate2 = true))
        ∧ ((calcTierEligibility loads md).eligible_tier = 1 ↔
            ((calcTierEligibility loads md).gate3 = false ∧
              (calcTierEligibility loads md).gate2 = false))
        ∧ ((calcTierEligibility loads md).gate3 = true →
            (calcTierEligibility loads md).gate2 = true)) := by
  have hcc : ∀ loads : List Load,
      tierCompleteCount loads 2 = loads.countP tier2FullyPopulated := by
    intro loads
    unfold tierCompleteCount
    exact List.countP_congr fun l _ => complete2_iff l
  have hmono : ∀ (loads : List Load) (hn : loads.length ≠ 0),
      tierCompletePct loads 3 ≥ tierPercentage 3 → tierCompletePct loads 2 ≥ tierPercentage 2 := by
    intro loads hn h3
    rw [tierPercentage_three] at h3
    rw [tierPercentage_two]
    unfold tierCompletePct at h3 ⊢
    rw [if_neg hn] at h3 ⊢
    have hc3 : loads.length ≤ tierCompleteCount loads 3 :=
      (pct_ge_100_iff _ _ hn).mp h3
    have hle : tierCompleteCount loads 3 ≤ tierCompleteCount loads 2 :=
      List.countP_mono_left fun l _ => tier3_complete_imp_tier2 l
    apply le_pct _ _ hn
    have h1 : (loads.length : ℚ) ≤ tierCompleteCount loads 2 := by
      exact_mod_cast le_trans hc3 hle
    have h0 : (0 : ℚ) ≤ (loads.length : ℚ) := by positivity
    linarith
  constructor
  · intro loads md hne hcount hmd
    have hn : loads.length ≠ 0 := fun h0 => hne (List.length_eq_zero.mp h0)
    have hg2 : tierCompletePct loads 2 ≥ tierPercentage 2 := by
      rw [tierPercentage_two]
      unfold tierCompletePct
      rw [if_neg hn, hcc]
      apply le_pct _ _ hn
      have h1 := (Nat.cast_le (α := ℚ)).mpr hcount
      push_cast at h1
      have h0 : (0 : ℚ) ≤ (loads.countP tier2FullyPopulated : ℚ) := by positivity
      linarith
    have hg3 : (decide (tierCompletePct loads 3 ≥ tierPercentage 3)
        && fcsVerified md && cableVerified md) = false := by
      rcases hmd with h | h <;> simp [h]
    simp only [calcTierEligibility, isEmpty_false_of_ne_nil hne, Bool.false_eq_true, if_false]
    simp only [hg3, decide_eq_true_eq, Bool.false_eq_true, if_false, if_pos hg2]
  · intro loads md hne
    have hn : loads.length ≠ 0 := fun h0 => hne (List.length_eq_zero.mp h0)
    simp only [calcTierEligibility, isEmpty_false_of_ne_nil hne, Bool.false_eq_true, if_false]
    set b3 := decide (tierCompletePct loads 3 ≥ tierPercentage 3)
        && fcsVerified md && cableVerified md with hb3
    set b2 := decide (tierCompletePct loads 2 ≥ tierPercentage 2) with hb2
    refine ⟨?_, ?_, ?_, ?_⟩
    · cases h3 : b3 <;> cases h2 : b2 <;> simp
    · cases h3 : b3 <;> cases h2 : b2 <;> simp
    · cases h3 : b3 <;> cases h2 : b2 <;> simp
    · intro h3
      have hpct3 : tierCompletePct loads 3 ≥ tierPercentage 3 := by
        rw [hb3] at h3
        simp only [Bool.and_eq_true, decide_eq_true_eq] at h3
        exact h3.1.1
      have := hmono loads hn hpct3
      simp [hb2, this]

/-- A load with all five Tier-2 required fields populated and non-zero. -/
def loadTier2Full : Load := fun f =>
  if f = "equipment_tag" then .vStr "100-P-01"
  else if f = "rated_kw" then .vNum 5
  else if f = "flc_table_a" then .vNum 10
  else if f = "feeder_type" then .vStr "DOL"
  else if f = "mcc_panel" then .vStr "MCC-100"
  else .vNone

theorem tier_eligibility_c1_witness :
    (calcTierEligibility [loadTier2Full] {}).eligible_tier = 2 :=
  tier_eligibility_c1.1 [loadTier2Full] {} (List.cons_ne_nil _ _) (by decide)
    (Or.inl (by decide))

/-- The counterexample load of C3/C4: `demand_kw = 0`, all other Tier-1
fields populated. -/
def loadDemandZero : Load := fun f =>
  if f = "equipment_tag" then .vStr "100-P-01"
  else if f = "rated_kw" then .vNum 5
  else if f = "demand_kw" then .vNum 0
  else .vNone

/-- **C3 counterexample.** A non-empty load list (one load with
`demand_kw = 0`) on which the tier-1 gate is `False` and the tier-1
completeness is not 100%: tier 1 is not "always achievable". -/
theorem tier1_gate_c3_counterexample :
    (calcTierEligibility [loadDemandZero] {}).gate1 = false ∧
      (calcLoadCompleteness loadDemandZero 1).completeness_pct ≠ 100 := by
  have hcount : tierCompleteCount [loadDemandZero] 1 = 0 := by decide
  have hpct : tierCompletePct [loadDemandZero] 1 = 0 := by
    unfold tierCompletePct
    rw [hcount]
    norm_num
  constructor
  · simp only [calcTierEligibility,
      isEmpty_false_of_ne_nil (List.cons_ne_nil loadDemandZero []),
      Bool.false_eq_true, if_false, hpct, tierPercentage_one]
    norm_num
  · have hlen : ((tierRequiredLoad 1).filter fun f => pyPresent (loadDemandZero f)).length = 2 := by
      decide
    have hreq : (tierRequiredLoad 1).isEmpty = false := by decide
    have hreqlen : (tierRequiredLoad 1).length = 3 := by decide
    simp only [calcLoadCompleteness, hreq, Bool.false_eq_true, if_false, hlen, hreqlen]
    norm_num [roundQ, rndHE]

/-- **C3 (amended).** The tier-1 gate is true iff every load has all the
tier-1 required fields (`equipment_tag`, `rated_kw`, `demand_kw`)
non-null, non-empty and non-zero; the eligible tier is nevertheless
always at least 1 (tier 1 is the unconditional default). -/
theorem tier1_gate_c3_amended :
    ∀ (loads : List Load) (md : Metadata), loads ≠ [] →
      ((calcTierEligibility loads md).gate1 = true ↔
        ∀ l ∈ loads, ∀ f ∈ tierRequiredLoad 1, pyPresent (l f) = true)
      ∧ 1 ≤ (calcTierEligibility loads md).eligible_tier := by
  intro loads md hne
  have hn : loads.length ≠ 0 := fun h0 => hne (List.length_eq_zero.mp h0)
  simp only [calcTierEligibility, isEmpty_false_of_ne_nil hne, Bool.false_eq_true, if_false]
  constructor
  · simp only [decide_eq_true_eq, tierPercentage_one]
    unfold tierCompletePct
    rw [if_neg hn]
    rw [ge_iff_le, pct_ge_100_iff _ _ hn]
    have hle : tierCompleteCount loads 1 ≤ loads.length := List.countP_le_length _
    constructor
    · intro h l hl f hf
      have heq : tierCompleteCount loads 1 = loads.length := le_antisymm hle h
      have hall := List.countP_eq_length.mp heq l hl
      exact (complete_iff_all_present l 1).mp hall f hf
    · intro h
      have heq : tierCompleteCount loads 1 = loads.length := by
        apply List.countP_eq_length.mpr
        intro l hl
        exact (complete_iff_all_present l 1).mpr (h l hl)
      rw [heq]
  · cases (decide (tierCompletePct loads 3 ≥ tierPercentage 3)
        && fcsVerified md && cableVerified md) <;>
      cases (decide (tierCompletePct loads 2 ≥ tierPercentage 2)) <;> simp

/-- Closed instance for the amended C3: a fully populated single load,
for which the tier-1 gate is true. -/
def loadFull : Load := fun f =>
  if f = "equipment_tag" then .vStr "100-P-01"
  else if f = "rated_kw" then .vNum 5
  else if f = "demand_kw" then .vNum 3
  else .vNone

theorem tier1_gate_c3_amended_witness :
    ((calcTierEligibility [loadFull] {}).gate1 = true ↔
      ∀ l ∈ [loadFull], ∀ f ∈ tierRequiredLoad 1, pyPresent (l f) = true)
    ∧ 1 ≤ (calcTierEligibility [loadFull] {}).eligible_tier :=
  tier1_gate_c3_amended [loadFull] {} (List.cons_ne_nil _ _)

/-- **C4.** `calculate_load_completeness` counts a required field as
missing iff its value is `None`, the empty string, or Python-equal to the
literal zero (so also `False` and `0.0`), and as present otherwise; in
particular a single load with `demand_kw = 0` has `demand_kw` in its
`missing_fields` and is incomplete for tier 1, whose required fields
include `demand_kw`. -/
theorem load_completeness_c4 :
    (∀ (load : Load) (tier : ℕ) (f : String),
        f ∈ (calcLoadCompleteness load tier).missing_fields ↔
          f ∈ tierRequiredLoad tier ∧
            (load f = .vNone ∨ load f = .vStr "" ∨ pyEq (load f) (.vNum 0) = true))
    ∧ (∀ (load : Load) (tier : ℕ) (f : String),
        f ∈ (calcLoadCompleteness load tier).present_fields ↔
          f ∈ tierRequiredLoad tier ∧
            ¬(load f = .vNone ∨ load f = .vStr "" ∨ pyEq (load f) (.vNum 0) = true))
    ∧ ("demand_kw" ∈ (calcLoadCompleteness loadDemandZero 1).missing_fields
        ∧ (calcLoadCompleteness loadDemandZero 1).complete = false) := by
  refine ⟨?_, ?_, by decide⟩
  · intro load tier f
    rw [mem_missing_iff, ← pyPresent_eq_false_iff]
    simp
  · intro load tier f
    rw [mem_present_iff, ← pyPresent_eq_false_iff]
    simp

/-! ## Diversity parsing (`load_calculations.py`,
`parse_diversity_from_quantity_note`) -/

/-- Value of a run of decimal digit characters. -/
def digitsVal (cs : List Char) : ℕ :=
  cs.foldl (fun a c => 10 * a + (c.toNat - '0'.toNat)) 0

/-- `note.upper().replace(" ", "")` (only the space character is
replaced). -/
def normalizeNote (s : String) : List Char :=
  (s.data.map Char.toUpper).filter fun c => c ≠ ' '

/-- `re.match(r"(\d+)W(?:\+(\d+)S)?", note)`: anchored at the start; the
leading digit run is greedy (a digit can never match the following `W`,
so greedy matching is exact); the optional `+NS` group matches only when
fully present, else the overall match still succeeds with group 2 empty.
Returns the numeric value of group 1 and the optional value of group 2. -/
def matchNW (cs : List Char) : Option (ℕ × Option ℕ) :=
  let ds := cs.takeWhile Char.isDigit
  let r := cs.dropWhile Char.isDigit
  if ds.isEmpty then none
  else
    match r with
    | 'W' :: r2 =>
      some (digitsVal ds,
        match r2 with
        | '+' :: r3 =>
          let ds2 := r3.takeWhile Char.isDigit
          let r4 := r3.dropWhile Char.isDigit
          if ds2.isEmpty then none
          else
            match r4 with
            | 'S' :: _ => some (digitsVal ds2)
            | _ => none
        | _ => none)
    | _ => none

/-- `parse_diversity_from_quantity_note(quantity_note)`: `(diversity,
working, standby)`. -/
def parseDiversityFromQuantityNote (quantity_note : String) : ℚ × ℕ × ℕ :=
  if quantity_note = "" then (1, 1, 0)
  else
    let note := normalizeNote quantity_note
    match matchNW note with
    | some (working, og) =>
      let standby := og.getD 0
      let total := working + standby
      let diversity : ℚ := if total > 0 then (working : ℚ) / total else 1
      (roundQ 2 diversity, working, standby)
    | none =>
      if !note.isEmpty && note.all Char.isDigit then (1, digitsVal note, 0)
      else (1, 1, 0)

/-- **C7.** `"2W+1S"` parses to diversity `0.67` (within 0.01 of 2/3),
working 2, standby 1; `"1W"` and the empty string parse to diversity 1,
working 1, standby 0; and so does any note matching neither the
`NW(+MS)?` pattern nor a bare integer (e.g. `"N+1"`). -/
theorem diversity_parsing_c7 :
    (parseDiversityFromQuantityNote "2W+1S" = (67/100, 2, 1)
      ∧ |(67 : ℚ)/100 - 2/3| ≤ 1/100)
    ∧ parseDiversityFromQuantityNote "1W" = (1, 1, 0)
    ∧ parseDiversityFromQuantityNote "" = (1, 1, 0)
    ∧ parseDiversityFromQuantityNote "N+1" = (1, 1, 0)
    ∧ (∀ s : String, matchNW (normalizeNote s) = none →
        (!(normalizeNote s).isEmpty && (normalizeNote s).all Char.isDigit) = false →
        parseDiversityFromQuantityNote s = (1, 1, 0)) := by
  refine ⟨⟨?_, by norm_num [abs_le]⟩, ?_, by decide, by decide, ?_⟩
  · have hm : matchNW (normalizeNote "2W+1S") = some (2, some 1) := by decide
    have hs : ("2W+1S" = "") = False := by simp
    simp only [parseDiversityFromQuantityNote, hs, if_false, hm]
    norm_num [roundQ, rndHE]
  · have hm : matchNW (normalizeNote "1W") = some (1, none) := by decide
    have hs : ("1W" = "") = False := by simp
    simp only [parseDiversityFromQuantityNote, hs, if_false, hm]
    norm_num [roundQ, rndHE]
  · intro s h1 h2
    by_cases hs : s = ""
    · simp [parseDiversityFromQuantityNote, hs]
    · simp [parseDiversityFromQuantityNote, hs, h1, h2]

/-! ## Free-text capacity parsing (`extract_duty_points.py`,
`parse_capacity_string`)

Each of the six regexes has the shape "`([\d.]+)` then a deterministic
continuation".  For every greedy element (`[\d.]+`, `r?`, `y?`, `g?`,
`\.?`) the character class of what follows is disjoint from what the
greedy element could give back, so greedy matching without backtracking
is exact, and `re.search` is "try every start position left to right". -/

/-- Python `\s` (ASCII range). -/
def pyWsChar (c : Char) : Bool :=
  c = ' ' || c = '\t' || c = '\n' || c = '\r' || c = '\x0b' || c = '\x0c'

def isDigitDot (c : Char) : Bool := c.isDigit || c = '.'

/-- `\s*`: greedy whitespace skip. -/
def dropWs : List Char → List Char
  | c :: cs => if pyWsChar c then dropWs cs else c :: cs
  | [] => []

/-- `str.strip()` (ASCII whitespace). -/
def pyStrip (cs : List Char) : List Char :=
  ((cs.dropWhile pyWsChar).reverse.dropWhile pyWsChar).reverse

/-- Match a literal (given in lowercase), case-insensitively (`re.I`). -/
def litCI : List Char → List Char → Option (List Char)
  | [], rest => some rest
  | p :: ps, c :: cs => if c.toLower = p then litCI ps cs else none
  | _ :: _, [] => none

/-- Match a literal case-sensitively. -/
def litCS : List Char → List Char → Option (List Char)
  | [], rest => some rest
  | p :: ps, c :: cs => if c = p then litCS ps cs else none
  | _ :: _, [] => none

/-- Optional single character (case-insensitive), greedy. -/
def optCharCI (ch : Char) : List Char → List Char
  | c :: cs => if c.toLower = ch then cs else c :: cs
  | [] => []

/-- Maximal `[\d.]*` run and the remainder. -/
def numRun (cs : List Char) : List Char × List Char :=
  (cs.takeWhile isDigitDot, cs.dropWhile isDigitDot)

/-- Continuation of `([\d.]+)\s*m3/hr?\s*@\s*([\d.]+)\s*m\s*w\.?c\.?`
(`re.I`) after the leading number group; yields group 2. -/
def pat1Rest (cs : List Char) : Option (List Char) := do
  let r1 ← litCI ['m', '3', '/', 'h'] (dropWs cs)
  let r2 := optCharCI 'r' r1
  let r3 ← litCI ['@'] (dropWs r2)
  let (g2, r4) := numRun (dropWs r3)
  if g2.isEmpty then none
  else do
    let r5 ← litCI ['m'] (dropWs r4)
    let r6 ← litCI ['w'] (dropWs r5)
    let _ ← (match r6 with
      | '.' :: c :: rest => if c.toLower = 'c' then some rest else none
      | c :: rest => if c.toLower = 'c' then some rest else none
      | [] => none)
    pure g2

/-- Continuation of `([\d.]+)\s*m3/hr?\s*@\s*([\d.]+)\s*bar\s*g?`
(`re.I`); yields group 2. -/
def pat2Rest (cs : List Char) : Option (List Char) := do
  let r1 ← litCI ['m', '3', '/', 'h'] (dropWs cs)
  let r2 := optCharCI 'r' r1
  let r3 ← litCI ['@'] (dropWs r2)
  let (g2, r4) := numRun (dropWs r3)
  if g2.isEmpty then none
  else do
    let _ ← litCI ['b', 'a', 'r'] (dropWs r4)
    pure g2

/-- Continuation of `([\d.]+)\s*[Nn]m3/hr?` (no flags, so
case-sensitive apart from the `[Nn]` class). -/
def pat3Rest (cs : List Char) : Option Unit := do
  let r1 ← (match dropWs cs with
    | 'N' :: rest => some rest
    | 'n' :: rest => some rest
    | _ => none)
  let _ ← litCS ['m', '3', '/', 'h'] r1
  pure ()

/-- Continuation of `([\d.]+)\s*m3/[Dd]ay?` (`re.I`). -/
def pat4Rest (cs : List Char) : Option Unit := do
  let _ ← litCI ['m', '3', '/', 'd', 'a'] (dropWs cs)
  pure ()

/-- Continuation of `([\d.]+)\s*m3/hr?` (`re.I`). -/
def pat5Rest (cs : List Char) : Option Unit := do
  let _ ← litCI ['m', '3', '/', 'h'] (dropWs cs)
  pure ()

/-- Continuation of `([\d.]+)\s*m3(?!\s*/)` (`re.I`): negative
lookahead for `\s*/`. -/
def pat6Rest (cs : List Char) : Option Unit := do
  let r1 ← litCI ['m', '3'] (dropWs cs)
  match dropWs r1 with
  | '/' :: _ => none
  | _ => pure ()

/-- `re.search` for a pattern of shape `([\d.]+)` plus deterministic
continuation: try each start position left to right; at a position
starting with a digit or dot take the maximal run as group 1 and run the
continuation on the remainder. -/
def searchNum {α : Type} (rest : List Char → Option α) : List Char → Option (List Char × α)
  | [] => none
  | c :: cs =>
    if isDigitDot c then
      match rest (numRun (c :: cs)).2 with
      | some a => some ((numRun (c :: cs)).1, a)
      | none => searchNum rest cs
    else searchNum rest cs

/-- Python `float()` restricted to nonempty runs of digits and dots:
succeeds iff there is at most one dot and at least one digit (otherwise
`float()` raises `ValueError`). -/
def pyFloatRun (cs : List Char) : Option ℚ :=
  let ip := cs.takeWhile Char.isDigit
  match cs.dropWhile Char.isDigit with
  | [] => if ip.isEmpty then none else some (digitsVal ip)
  | '.' :: fp =>
    if fp.all Char.isDigit && (!ip.isEmpty || !fp.isEmpty) then
      some ((digitsVal ip : ℚ) + (digitsVal fp : ℚ) / (10 ^ fp.length))
    else none
  | _ => none

/-- `parse_capacity_string(capacity_str)`: the six patterns tried in
source order, first match wins; `none` models an uncaught `ValueError`
from `float()` (possible only when a matched `[\d.]+` group is not a
valid float literal, e.g. `"1..2"`). -/
def parse_capacity_string (s : String) : Option (List (String × ℚ)) :=
  if s = "" then some []
  else
    let text := pyStrip s.data
    match searchNum pat1Rest text with
    | some (g1, g2) => do
      let fl ← pyFloatRun g1
      let hd ← pyFloatRun g2
      pure [("flow_m3h", fl), ("head_m", hd)]
    | none =>
    match searchNum pat2Rest text with
    | some (g1, g2) => do
      let fl ← pyFloatRun g1
      let pr ← pyFloatRun g2
      pure [("flow_m3h", fl), ("p1_bar", 1.013), ("p2_bar", 1.013 + pr)]
    | none =>
    match searchNum pat3Rest text with
    | some (g1, _) => do
      let fl ← pyFloatRun g1
      pure [("flow_nm3h", fl)]
    | none =>
    match searchNum pat4Rest text with
    | some (g1, _) => do
      let fl ← pyFloatRun g1
      pure [("flow_m3h", fl / 24)]
    | none =>
    match searchNum pat5Rest text with
    | some (g1, _) => do
      let fl ← pyFloatRun g1
      pure [("flow_m3h", fl)]
    | none =>
    match searchNum pat6Rest text with
    | some (g1, _) => do
      let vl ← pyFloatRun g1
      pure [("volume_m3", vl)]
    | none => some []

/-- **C5.** `"500 m3/hr @ 30 m w.c."` parses to exactly
`{flow_m3h: 500, head_m: 30}` although the lower-priority bare-flow
pattern also matches it; concrete results for the other patterns; and in
general the six patterns decide the result in the fixed source order,
the first match determining the entire result ("no match" yielding the
empty dict). -/
theorem capacity_pattern_priority_c5 :
    (parse_capacity_string "500 m3/hr @ 30 m w.c."
        = some [("flow_m3h", 500), ("head_m", 30)]
      ∧ (searchNum pat5Rest (pyStrip ("500 m3/hr @ 30 m w.c.").data)).isSome = true)
    ∧ parse_capacity_string "2500 Nm3/hr" = some [("flow_nm3h", 2500)]
    ∧ parse_capacity_string "1200 m3/day" = some [("flow_m3h", 50)]
    ∧ parse_capacity_string "500 m3/hr" = some [("flow_m3h", 500)]
    ∧ parse_capacity_string "30 m3" = some [("volume_m3", 30)]
    ∧ parse_capacity_string "no capacity here" = some []
    ∧ (∀ s : String, s ≠ "" → ∀ g1 g2 fl hd,
        searchNum pat1Rest (pyStrip s.data) = some (g1, g2) →
        pyFloatRun g1 = some fl → pyFloatRun g2 = some hd →
        parse_capacity_string s = some [("flow_m3h", fl), ("head_m", hd)])
    ∧ (∀ s : String, s ≠ "" →
        searchNum pat1Rest (pyStrip s.data) = none → ∀ g1 g2 fl pr,
        searchNum pat2Rest (pyStrip s.data) = some (g1, g2) →
        pyFloatRun g1 = some fl → pyFloatRun g2 = some pr →
        parse_capacity_string s
          = some [("flow_m3h", fl), ("p1_bar", 1.013), ("p2_bar", 1.013 + pr)])
    ∧ (∀ s : String, s ≠ "" →
        searchNum pat1Rest (pyStrip s.data) = none →
        searchNum pat2Rest (pyStrip s.data) = none → ∀ g1 u fl,
        searchNum pat3Rest (pyStrip s.data) = some (g1, u) →
        pyFloatRun g1 = some fl →
        parse_capacity_string s = some [("flow_nm3h", fl)])
    ∧ (∀ s : String, s ≠ "" →
        searchNum pat1Rest (pyStrip s.data) = none →
        searchNum pat2Rest (pyStrip s.data) = none →
        searchNum pat3Rest (pyStrip s.data) = none → ∀ g1 u fl,
        searchNum pat4Rest (pyStrip s.data) = some (g1, u) →
        pyFloatRun g1 = some fl →
        parse_capacity_string s = some [("flow_m3h", fl / 24)])
    ∧ (∀ s : String, s ≠ "" →
        searchNum pat1Rest (pyStrip s.data) = none →
        searchNum pat2Rest (pyStrip s.data) = none →
        searchNum pat3Rest (pyStrip s.data) = none →
        searchNum pat4Rest (pyStrip s.data) = none → ∀ g1 u fl,
        searchNum pat5Rest (pyStrip s.data) = some (g1, u) →
        pyFloatRun g1 = some fl →
        parse_capacity_string s = some [("flow_m3h", fl)])
    ∧ (∀ s : String, s ≠ "" →
        searchNum pat1Rest (pyStrip s.data) = none →
        searchNum pat2Rest (pyStrip s.data) = none →
        searchNum pat3Rest (pyStrip s.data) = none →
        searchNum pat4Rest (pyStrip s.data) = none →
        searchNum pat5Rest (pyStrip s.data) = none → ∀ g1 u vl,
        searchNum pat6Rest (pyStrip s.data) = some (g1, u) →
        pyFloatRun g1 = some vl →
        parse_capacity_string s = some [("volume_m3", vl)])
    ∧ (∀ s : String, s ≠ "" →
        searchNum pat1Rest (pyStrip s.data) = none →
        searchNum pat2Rest (pyStrip s.data) = none →
        searchNum pat3Rest (pyStrip s.data) = none →
        searchNum pat4Rest (pyStrip s.data) = none →
        searchNum pat5Rest (pyStrip s.data) = none →
        searchNum pat6Rest (pyStrip s.data) = none →
        parse_capacity_string s = some []) := by
  refine ⟨⟨by decide, by decide⟩, by decide, ?_, by decide, by decide, by decide,
    ?_, ?_, ?_, ?_, ?_, ?_, ?_⟩
  · have h1 : searchNum pat1Rest (pyStrip ("1200 m3/day").data) = none := by decide
    have h2 : searchNum pat2Rest (pyStrip ("1200 m3/day").data) = none := by decide
    have h3 : searchNum pat3Rest (pyStrip ("1200 m3/day").data) = none := by decide
    have h4 : searchNum pat4Rest (pyStrip ("1200 m3/day").data)
        = some (['1', '2', '0', '0'], ()) := by decide
    have hf : pyFloatRun ['1', '2', '0', '0'] = some 1200 := by decide
    simp only [parse_capacity_string, if_neg (by decide : ¬("1200 m3/day" = "")),
      h1, h2, h3, h4, hf]
    norm_num
  · intro s hs g1 g2 fl hd h hf1 hf2
    simp only [parse_capacity_string, if_neg hs, h, hf1, hf2, Option.bind_eq_bind,
      Option.some_bind, Option.pure_def]
  · intro s hs h1 g1 g2 fl pr h hf1 hf2
    simp only [parse_capacity_string, if_neg hs, h1, h, hf1, hf2, Option.bind_eq_bind,
      Option.some_bind, Option.pure_def]
  · intro s hs h1 h2 g1 u hf h hfv
    simp only [parse_capacity_string, if_neg hs, h1, h2, h, hfv, Option.bind_eq_bind,
      Option.some_bind, Option.pure_def]
  · intro s hs h1 h2 h3 g1 u fl h hf
    simp only [parse_capacity_string, if_neg hs, h1, h2, h3, h, hf, Option.bind_eq_bind,
      Option.some_bind, Option.pure_def]
  · intro s hs h1 h2 h3 h4 g1 u fl h hf
    simp only [parse_capacity_string, if_neg hs, h1, h2, h3, h4, h, hf, Option.bind_eq_bind,
      Option.some_bind, Option.pure_def]
  · intro s hs h1 h2 h3 h4 h5 g1 u vl h hf
    simp only [parse_capacity_string, if_neg hs, h1, h2, h3, h4, h5, h, hf,
      Option.bind_eq_bind, Option.some_bind, Option.pure_def]
  · intro s hs h1 h2 h3 h4 h5 h6
    simp only [parse_capacity_string, if_neg hs, h1, h2, h3, h4, h5, h6]

/-! ## Bus / breaker selection (`mcc_aggregation.py`) -/

def STANDARD_BUS_RATINGS : List ℕ := [400, 630, 800, 1000, 1600, 2000, 2500, 3200]

def STANDARD_BREAKER_RATINGS : List ℕ :=
  [100, 125, 160, 200, 250, 315, 400, 500, 630,
   800, 1000, 1250, 1600, 2000, 2500, 3200, 4000]

/-- `select_bus_rating(demand_amps, margin)`; `margin` defaults to `1.25`
in the source and is passed explicitly here. -/
def select_bus_rating (demand_amps margin : ℚ) : String :=
  let required := demand_amps * margin
  match STANDARD_BUS_RATINGS.find? (fun r : ℕ => decide ((r : ℚ) ≥ required)) with
  | some r => toString r ++ "A"
  | none => ">" ++ toString (STANDARD_BUS_RATINGS.getLastD 0) ++ "A"

/-- `select_main_breaker(demand_amps, margin)`; `margin` defaults to
`1.25` in the source and is passed explicitly here. -/
def select_main_breaker (demand_amps margin : ℚ) : ℚ :=
  let required := demand_amps * margin
  match STANDARD_BREAKER_RATINGS.find? (fun r : ℕ => decide ((r : ℚ) ≥ required)) with
  | some r => (r : ℚ)
  | none => (STANDARD_BREAKER_RATINGS.getLastD 0 : ℕ)

theorem bus_find_none_of_lt (required : ℚ) (h : 3200 < required) :
    STANDARD_BUS_RATINGS.find? (fun r : ℕ => decide (required ≤ (r : ℚ))) = none := by
  rw [List.find?_eq_none]
  intro x hx
  simp only [decide_eq_true_eq, not_le]
  have hxle : (x : ℚ) ≤ 3200 := by
    fin_cases hx <;> norm_num
  linarith

theorem breaker_find_none_of_lt (required : ℚ) (h : 4000 < required) :
    STANDARD_BREAKER_RATINGS.find? (fun r : ℕ => decide (required ≤ (r : ℚ))) = none := by
  rw [List.find?_eq_none]
  intro x hx
  simp only [decide_eq_true_eq, not_le]
  have hxle : (x : ℚ) ≤ 4000 := by
    fin_cases hx <;> norm_num
  linarith

/-- **C8 counterexample.** At demand 10000 A (margin-adjusted 12500 A,
beyond every table entry), `select_bus_rating` does not return the
largest table entry `"3200A"` but the distinct overflow marker
`">3200A"`. -/
theorem bus_rating_c8_counterexample :
    select_bus_rating 10000 1.25 ≠ "3200A" ∧ select_bus_rating 10000 1.25 = ">3200A" := by
  have hnone := bus_find_none_of_lt (10000 * 1.25) (by norm_num)
  constructor
  · simp only [select_bus_rating, ge_iff_le]
    rw [hnone]
    decide
  · simp only [select_bus_rating, ge_iff_le]
    rw [hnone]
    decide

/-- **C8 (amended).** When the margin-adjusted requirement exceeds the
largest table entry, `select_main_breaker` returns the largest breaker
entry (4000 A) and `select_bus_rating` returns the largest bus entry
rendered with a `">"` overflow prefix (`">3200A"`, not `"3200A"`) —
neither raises an error; concretely both hold at 10000 A demand. -/
theorem bus_breaker_c8_amended :
    (∀ amps : ℚ,
      (3200 < amps * 1.25 → select_bus_rating amps 1.25 = ">3200A")
      ∧ (4000 < amps * 1.25 → select_main_breaker amps 1.25 = 4000))
    ∧ select_main_breaker 10000 1.25 = 4000 := by
  constructor
  · intro amps
    constructor
    · intro h
      simp only [select_bus_rating, ge_iff_le]
      rw [bus_find_none_of_lt (amps * 1.25) h]
      decide
    · intro h
      simp only [select_main_breaker, ge_iff_le]
      rw [breaker_find_none_of_lt (amps * 1.25) h]
      norm_num [STANDARD_BREAKER_RATINGS]
  · have hnone := breaker_find_none_of_lt (10000 * 1.25) (by norm_num)
    simp only [select_main_breaker, ge_iff_le]
    rw [hnone]
    norm_num [STANDARD_BREAKER_RATINGS]

/-! ## Duty-point extraction (`extract_duty_points.py`,
`extract_duty_point`)

File I/O is abstracted: each entry of `sizing_artifacts` is modelled by
its path string together with the outcome of `load_artifact(path)`
followed by the type-specific extractor on the loaded artifact for the
given tag: `none` when either step raises (the swallowed `except`
path), `some none` when the extractor returns `None`, and
`some (some d)` when it returns the duty dict `d`.  Dicts are ordered
association lists with unique keys, as in Python. -/

structure ArtifactOutcome where
  path : String
  outcome : Option (Option (List (String × PyVal)))
  deriving DecidableEq, Repr

/-- Ordered Python dict update of one key: overwrite in place, or
append at the end when absent. -/
def setKey (k : String) (v : PyVal) : List (String × PyVal) → List (String × PyVal)
  | [] => [(k, v)]
  | (k2, v2) :: rest => if k2 = k then (k, v) :: rest else (k2, v2) :: setKey k v rest

/-- `result.update(d)`. -/
def updateDict (d upd : List (String × PyVal)) : List (String × PyVal) :=
  upd.foldl (fun acc kv => setKey kv.1 kv.2 acc) d

def lookupKey (k : String) (d : List (String × PyVal)) : Option PyVal :=
  (d.find? fun kv => kv.1 == k).map Prod.snd

/-- Key removal, as performed by `dict.pop`. -/
def eraseKey (k : String) (d : List (String × PyVal)) : List (String × PyVal) :=
  d.filter fun kv => kv.1 != k

/-- The initial `result` dict of `extract_duty_point`. -/
def baseResult (tag ty : String) : List (String × PyVal) :=
  [("equipment_tag", .vStr tag), ("equipment_type", .vStr ty),
   ("duty_point_found", .vBool false), ("source", .vNone)]

/-- `str.upper()` (character-wise, ASCII). -/
def strUpper (s : String) : String :=
  ⟨s.data.map Char.toUpper⟩

/-- `type_upper in ["P","PU"] / ["B","BL"] / ["AG","MX"]`: whether an
extractor function is assigned (otherwise the artifact loop is skipped
entirely). -/
def hasExtractor (ty : String) : Bool :=
  let u := strUpper ty
  u == "P" || u == "PU" || u == "B" || u == "BL" || u == "AG" || u == "MX"

/-- The acceptance test on an extractor result:
`duty_point and any(v for k, v in duty_point.items() if k != "source" and v)`. -/
def dutyAccepted (d : List (String × PyVal)) : Bool :=
  !d.isEmpty && d.any fun kv => kv.1 != "source" && pyTruthy kv.2

/-- The artifact loop: the first accepted artifact produces the result
(`result.update(duty_point)`, then `duty_point_found = True`, then
`source = str(artifact_path)`); load/extract failures and unaccepted
results just continue. -/
def scanArtifacts (tag ty : String) :
    List ArtifactOutcome → Option (List (String × PyVal))
  | [] => none
  | a :: rest =>
    match a.outcome with
    | some (some d) =>
      if dutyAccepted d then
        some (setKey "source" (.vStr a.path)
          (setKey "duty_point_found" (.vBool true) (updateDict (baseResult tag ty) d)))
      else scanArtifacts tag ty rest
    | _ => scanArtifacts tag ty rest

/-- `extract_duty_point(equipment_tag, equipment_type, sizing_artifacts,
fallback_data)`.  Returns the result dict together with the post-call
state of the caller's `fallback_data` — the only argument the function
ever mutates (via `fallback_data.pop("_source", "equipment_list")`,
executed only when no artifact produced a result and `fallback_data` is
truthy); the artifact list, tag and type code are never assigned to. -/
def extract_duty_point (tag ty : String) (artifacts : List ArtifactOutcome)
    (fallback : Option (List (String × PyVal))) :
    List (String × PyVal) × Option (List (String × PyVal)) :=
  match (if hasExtractor ty then scanArtifacts tag ty artifacts else none) with
  | some r => (r, fallback)
  | none =>
    match fallback with
    | some fb =>
      if fb.isEmpty then (baseResult tag ty, some fb)
      else
        let fsrc := (lookupKey "_source" fb).getD (.vStr "equipment_list")
        let fb2 := eraseKey "_source" fb
        let r1 := updateDict (baseResult tag ty) fb2
        let r2 := setKey "duty_point_found" (.vBool !fb2.isEmpty) r1
        (setKey "source" fsrc r2, some fb2)
    | none => (baseResult tag ty, none)

/-- "This artifact yields no accepted duty point": a load/parse failure,
an extractor miss, or an all-falsy duty dict. -/
def artifactFails (a : ArtifactOutcome) : Bool :=
  match a.outcome with
  | some (some d) => !dutyAccepted d
  | _ => true

theorem scan_eq_none_of_all_fail (tag ty : String) (arts : List ArtifactOutcome)
    (h : ∀ a ∈ arts, artifactFails a = true) :
    scanArtifacts tag ty arts = none := by
  induction arts with
  | nil => rfl
  | cons a rest ih =>
    have ha := h a (List.mem_cons_self a rest)
    have hrest := ih fun x hx => h x (List.mem_cons_of_mem a hx)
    unfold scanArtifacts
    unfold artifactFails at ha
    match hout : a.outcome with
    | none => simpa [hout] using hrest
    | some none => simpa [hout] using hrest
    | some (some d) =>
      rw [hout] at ha
      simp only [Bool.not_eq_true'] at ha
      simpa [hout, ha] using hrest

theorem scan_isSome_of_accept (tag ty : String) (arts : List ArtifactOutcome)
    (h : ¬ ∀ a ∈ arts, artifactFails a = true) :
    (scanArtifacts tag ty arts).isSome = true := by
  induction arts with
  | nil => exact absurd (by simp) h
  | cons a rest ih =>
    unfold scanArtifacts
    match hout : a.outcome with
    | none =>
      apply ih
      intro hall
      apply h
      intro x hx
      rcases List.mem_cons.mp hx with rfl | hx2
      · simp [artifactFails, hout]
      · exact hall x hx2
    | some none =>
      apply ih
      intro hall
      apply h
      intro x hx
      rcases List.mem_cons.mp hx with rfl | hx2
      · simp [artifactFails, hout]
      · exact hall x hx2
    | some (some d) =>
      by_cases hacc : dutyAccepted d = true
      · simp [hacc]
      · simp only [Bool.not_eq_true] at hacc
        simp only [hacc, Bool.false_eq_true, if_false]
        apply ih
        intro hall
        apply h
        intro x hx
        rcases List.mem_cons.mp hx with rfl | hx2
        · simp [artifactFails, hout, hacc]
        · exact hall x hx2

/-- **C9.** A load/parse failure on one artifact (or an extractor miss)
is swallowed and the search continues with the remaining artifacts; when
every artifact fails and no fallback data is supplied, the result is
exactly the base record - `duty_point_found = False`, `source = None`,
and no keys beyond the four base ones (in particular no numeric
duty-point fields); concretely so for a blower tag with one unreadable
and one non-matching artifact. -/
theorem duty_extraction_c9 :
    (∀ (tag ty p : String) (rest : List ArtifactOutcome)
        (fb : Option (List (String × PyVal))),
        extract_duty_point tag ty ({ path := p, outcome := none } :: rest) fb
          = extract_duty_point tag ty rest fb)
    ∧ (∀ (tag ty p : String) (rest : List ArtifactOutcome)
        (fb : Option (List (String × PyVal))),
        extract_duty_point tag ty ({ path := p, outcome := some none } :: rest) fb
          = extract_duty_point tag ty rest fb)
    ∧ (∀ (tag ty : String) (artifacts : List ArtifactOutcome),
        (∀ a ∈ artifacts, artifactFails a = true) →
        (extract_duty_point tag ty artifacts none).1 = baseResult tag ty)
    ∧ (∀ tag ty : String,
        lookupKey "duty_point_found" (baseResult tag ty) = some (.vBool false)
        ∧ (baseResult tag ty).map Prod.fst
            = ["equipment_tag", "equipment_type", "duty_point_found", "source"])
    ∧ extract_duty_point "200-B-01" "B"
        [{ path := "a.json", outcome := none },
         { path := "b.json", outcome := some none }] none
      = (baseResult "200-B-01" "B", none) := by
  refine ⟨?_, ?_, ?_, ?_, by decide⟩
  · intro tag ty p rest fb
    cases hex : hasExtractor ty <;> simp [extract_duty_point, hex, scanArtifacts]
  · intro tag ty p rest fb
    cases hex : hasExtractor ty <;> simp [extract_duty_point, hex, scanArtifacts]
  · intro tag ty artifacts h
    cases hex : hasExtractor ty <;>
      simp [extract_duty_point, hex, scan_eq_none_of_all_fail tag ty artifacts h]
  · intro tag ty
    exact ⟨rfl, rfl⟩

/-- Fallback dict holding a `_source` key, for C10. -/
def fbWithSource : List (String × PyVal) :=
  [("_source", .vStr "pump_curve"), ("flow_m3h", .vNum 100)]

/-- An artifact whose pump extraction succeeds, for C10. -/
def artMatch : ArtifactOutcome :=
  { path := "mcp-outputs/p1/sizing.json",
    outcome := some (some [("flow_m3h", .vNum 50), ("head_m", .vNum 20)]) }

/-- **C10 counterexample.** Called with a non-empty `fallback_data`
containing `_source` but with an artifact that yields the duty point,
`extract_duty_point` returns with the caller's `fallback_data`
untouched - `_source` is not removed - refuting the claim that a
non-empty `fallback_data` is always mutated. -/
theorem duty_fallback_c10_counterexample :
    (extract_duty_point "T-1" "P" [artMatch] (some fbWithSource)).2 = some fbWithSource
    ∧ lookupKey "_source" fbWithSource = some (.vStr "pump_curve") := by
  constructor <;> decide

/-- **C10 (amended).** The post-call state of the caller's
`fallback_data`: it is mutated - `_source` removed in place before the
remaining entries are merged - exactly when no artifact yields an
accepted duty point (including when the type has no extractor) and
`fallback_data` is non-empty; when an artifact yields the duty point, or
`fallback_data` is empty or absent, it is left untouched.  The tag, the
type code and the artifact list are never modified (the embedding
threads only `fallback_data`, the one object the source assigns to). -/
theorem duty_fallback_c10_amended :
    (∀ (tag ty : String) (artifacts : List ArtifactOutcome)
        (fb : List (String × PyVal)),
        (extract_duty_point tag ty artifacts (some fb)).2 =
          (if hasExtractor ty && !artifacts.all artifactFails then some fb
           else if fb.isEmpty then some fb
           else some (eraseKey "_source" fb)))
    ∧ (∀ (tag ty : String) (artifacts : List ArtifactOutcome),
        (extract_duty_point tag ty artifacts none).2 = none) := by
  constructor
  · intro tag ty artifacts fb
    cases hex : hasExtractor ty
    · simp only [extract_duty_point, hex, Bool.false_eq_true, if_false, Bool.false_and]
      by_cases hfe : fb.isEmpty <;> simp [hfe]
    · by_cases hall : ∀ a ∈ artifacts, artifactFails a = true
      · have hscan := scan_eq_none_of_all_fail tag ty artifacts hall
        have hallb : artifacts.all artifactFails = true := List.all_eq_true.mpr hall
        simp only [extract_duty_point, hex, if_true, hscan, hallb, Bool.not_true,
          Bool.and_false, Bool.false_eq_true, if_false]
        by_cases hfe : fb.isEmpty <;> simp [hfe]
      · have hsome := scan_isSome_of_accept tag ty artifacts hall
        obtain ⟨r, hr⟩ := Option.isSome_iff_exists.mp hsome
        have hallb : artifacts.all artifactFails = false := by
          rw [← Bool.not_eq_true, List.all_eq_true]
          exact hall
        simp [extract_duty_point, hex, hr, hallb]
  · intro tag ty artifacts
    cases hscan : (if hasExtractor ty then scanArtifacts tag ty artifacts else none) with
    | none => simp [extract_duty_point, hscan]
    | some r => simp [extract_duty_point, hscan]

/-! ## Load processing (`generate_load_list.py`, `process_load`;
formula helpers from `load_calculations.py`)

`math.sqrt` and `**` force this part of the embedding into `ℝ`.  The
catalog-driven collaborators (`lookup_fla`, `get_motor_efficiency`,
`get_duty_profile`) read YAML catalog data outside the core scripts;
their results enter `process_load` as parameters (`flcTable` /
`flcSource`, `motorEffLookup`, `profile`), exactly the values the
source receives from those calls. -/

noncomputable section

/-- Round half to even on a real value (Python `round` idealised over
the reals). -/
def rndHEr (x : ℝ) : ℤ :=
  let f : ℤ := ⌊x⌋
  let r : ℝ := x - f
  if r < 1/2 then f
  else if 1/2 < r then f + 1
  else if f % 2 = 0 then f else f + 1

/-- Python `round(x, n)` on a real value. -/
def roundR (n : ℕ) (x : ℝ) : ℝ :=
  (rndHEr (x * 10 ^ n) : ℝ) / 10 ^ n

theorem rndHEr_intCast (z : ℤ) : rndHEr (z : ℝ) = z := by
  simp [rndHEr, Int.floor_intCast]

/-- `calc_lra(fla, lra_multiplier)`: `process_load` passes
`design_letter = None`, so no catalog lookup occurs. -/
def calc_lra (fla lra_multiplier : ℝ) : ℝ := fla * lra_multiplier

/-- `calc_pump_brake_kw(flow_m3h, head_m, sg, pump_eff)`:
`(sg * 9.81 * flow * head) / (3600 * pump_eff)`, rounded to 2 digits. -/
def calc_pump_brake_kw (flow_m3h head_m sg pump_eff : ℝ) : ℝ :=
  roundR 2 ((sg * 9.81 * flow_m3h * head_m) / (3600 * pump_eff))

/-- `calc_blower_brake_kw(flow_nm3h, p1_bar, p2_bar, inlet_temp_k, n,
blower_eff)`: polytropic compression power with temperature/pressure
corrections from normal conditions (273.15 K, 1.01325 bar), rounded to
2 digits. -/
def calc_blower_brake_kw (flow_nm3h p1_bar p2_bar inlet_temp_k n blower_eff : ℝ) : ℝ :=
  roundR 2 ((n / (n - 1)) * (p1_bar * 100) * (flow_nm3h / 3600)
    * (inlet_temp_k / 273.15) * (1.01325 / p1_bar)
    * ((p2_bar / p1_bar) ^ ((n - 1) / n) - 1) / blower_eff)

/-- `calc_mixer_brake_kw(volume_m3, w_per_m3)`. -/
def calc_mixer_brake_kw (volume_m3 w_per_m3 : ℝ) : ℝ :=
  roundR 2 (volume_m3 * w_per_m3 / 1000)

/-- `calc_absorbed_kw(brake_kw, motor_efficiency_pct)`. -/
def calc_absorbed_kw (brake_kw motor_efficiency_pct : ℝ) : ℝ :=
  roundR 2 (brake_kw / (motor_efficiency_pct / 100))

/-- `calc_running_kw(absorbed_kw, load_factor)`. -/
def calc_running_kw (absorbed_kw load_factor : ℝ) : ℝ :=
  roundR 2 (absorbed_kw * load_factor)

/-- `calc_demand_kw(running_kw, diversity_factor)`. -/
def calc_demand_kw (running_kw diversity_factor : ℝ) : ℝ :=
  roundR 2 (running_kw * diversity_factor)

/-- `calc_daily_kwh(running_kw, running_hours)`. -/
def calc_daily_kwh (running_kw running_hours : ℝ) : ℝ :=
  roundR 2 (running_kw * running_hours)

/-- The keys of the equipment dict that `process_load` and
`extract_all_duty_points` read; an absent-or-`None` entry is `none`. -/
structure Equipment where
  tag : Option String := none
  equipment_tag : Option String := none
  equipment_type : Option String := none
  power_kw : Option ℝ := none
  power_kW : Option ℝ := none
  installed_kw : Option ℝ := none
  feeder_type : Option String := none
  process_unit_type : Option String := none
  motor_poles : Option ℝ := none
  efficiency_class : Option String := none
  efficiency_pct : Option ℝ := none
  fla_nameplate_a : Option ℝ := none
  pf : Option ℝ := none
  quantity_note : Option String := none
  quantity : Option ℤ := none
  mcc_panel : Option String := none
  area : Option ℤ := none
  description : Option String := none

/-- The duty-point dict keys `process_load` reads. -/
structure DutyPoint where
  brake_kw : Option ℝ := none
  flow_m3h : Option ℝ := none
  head_m : Option ℝ := none
  pump_eff : Option ℝ := none
  flow_nm3h : Option ℝ := none
  p1_bar : Option ℝ := none
  p2_bar : Option ℝ := none
  blower_eff : Option ℝ := none
  volume_m3 : Option ℝ := none
  w_per_m3 : Option ℝ := none
  source : Option String := none

/-- Result of the `get_duty_profile` collaborator (catalog-driven; the
VFD/DOL load-factor selection happens inside it). -/
structure DutyProfile where
  running_hours_per_day : ℝ
  load_factor : ℝ
  duty_cycle : String

/-- The `flc_provenance` sub-dict of a processed load. -/
structure FlcProvenance where
  source : String
  selection_stage : String
  verified : Bool
  notes : String
  deriving DecidableEq, Repr

/-- The load dict built by `process_load`. -/
structure ProcessedLoad where
  equipment_tag : String
  description : String
  process_unit_type : String
  area : ℤ
  equipment_type : String
  rated_kw : ℝ
  installed_kw : ℝ
  voltage_v : ℝ
  phases : ℕ
  frequency_hz : ℝ
  motor_poles : ℝ
  efficiency_pct : ℝ
  pf : ℝ
  efficiency_class : String
  service_factor : ℝ
  flc_table_a : ℝ
  fla_nameplate_a : ℝ
  fla : ℝ
  lra : ℝ
  lra_multiplier : ℝ
  fla_source : String
  flc_provenance : FlcProvenance
  feeder_type : String
  brake_kw : Option ℝ
  absorbed_kw : ℝ
  duty_cycle : String
  running_hours_per_day : ℝ
  load_factor : ℝ
  diversity_factor : ℝ
  quantity : ℤ
  quantity_note : String
  running_kw : ℝ
  demand_kw : ℝ
  daily_kwh : ℝ
  mcc_panel : String
  duty_point_source : Option String

/-- `extract_equipment_type(tag)`:
`re.match(r"\d{3}-([A-Z]{1,5})-\d+", tag)`, group 1 or `""`. -/
def extract_equipment_type (tag : String) : String :=
  match tag.data with
  | a :: b :: c :: '-' :: rest =>
    if a.isDigit && b.isDigit && c.isDigit then
      let ls := rest.takeWhile Char.isUpper
      if 1 ≤ ls.length ∧ ls.length ≤ 5 then
        match rest.dropWhile Char.isUpper with
        | '-' :: d :: _ => if d.isDigit then ⟨ls⟩ else ""
        | _ => ""
      else ""
    else ""
  | _ => ""

/-- `str.lower()` (character-wise, ASCII). -/
def strLower (s : String) : String :=
  ⟨s.data.map Char.toLower⟩

/-- Python `needle in haystack` on strings (substring containment). -/
def containsSub (needle hay : List Char) : Bool :=
  match hay with
  | [] => needle.isEmpty
  | _ :: t => needle.isPrefixOf hay || containsSub needle t

/-- The resolution of `efficiency_pct` in `process_load`:
`equipment.get("efficiency_pct")`, falling back to
`get_motor_efficiency(...)` (the `motorEffLookup` parameter) when absent
or falsy. -/
def resolve_efficiency_pct (eq : Equipment) (motorEffLookup : ℝ) : ℝ :=
  match eq.efficiency_pct with
  | some v => if v ≠ 0 then v else motorEffLookup
  | none => motorEffLookup

/-- The resolution of `fla_nameplate` in `process_load`: the equipment's
nameplate value when supplied, else the estimate
`kW * 1000 / (sqrt(3) * V * eta * pf)`. -/
def resolve_fla_nameplate (eq : Equipment) (voltage : ℝ) (efficiency_pct : ℝ) : ℝ :=
  match eq.fla_nameplate_a with
  | some v => v
  | none =>
    let eff := if efficiency_pct ≠ 0 then efficiency_pct / 100 else 0.90
    let pf_est := eq.pf.getD 0.85
    ((eq.power_kw.getD (eq.power_kW.getD (eq.installed_kw.getD 0))) * 1000)
      / (Real.sqrt 3 * voltage * eff * pf_est)

/-- Steps (1) and (2) of the brake-power resolution in `process_load`:
the duty point's own `brake_kw` when present, else the type-specific
physical formula when the duty point supplies the needed (truthy)
fields. -/
def brake_from_duty (eq_type : String) (dp : DutyPoint) : Option ℝ :=
  match dp.brake_kw with
  | some b => some b
  | none =>
    if eq_type = "P" ∨ eq_type = "PU" then
      let flow := dp.flow_m3h.getD 0
      let head := dp.head_m.getD 0
      let pump_eff := dp.pump_eff.getD 0.70
      if flow ≠ 0 ∧ head ≠ 0 then some (calc_pump_brake_kw flow head 1.0 pump_eff)
      else none
    else if eq_type = "B" ∨ eq_type = "BL" then
      let flow := dp.flow_nm3h.getD 0
      let p1 := dp.p1_bar.getD 1.013
      let p2 := dp.p2_bar.getD 1.6
      let blower_eff := dp.blower_eff.getD 0.70
      if flow ≠ 0 then some (calc_blower_brake_kw flow p1 p2 293 1.4 blower_eff)
      else none
    else if eq_type = "AG" ∨ eq_type = "MX" then
      let volume := dp.volume_m3.getD 0
      let w_per_m3 := dp.w_per_m3.getD 8
      if volume ≠ 0 then some (calc_mixer_brake_kw volume w_per_m3)
      else none
    else none

/-- Full brake-power resolution: steps (1)/(2), else the last-resort
estimate `installed_kw * 0.85` (`typical_load_factor`; motor efficiency
is deliberately not a factor). -/
def resolve_brake_kw (eq_type : String) (installed_kw : ℝ) (dp : DutyPoint) : ℝ :=
  (brake_from_duty eq_type dp).getD (installed_kw * 0.85)

/-- `process_load(equipment, duty_point, motor_standard, voltage,
frequency)`.  `flcTable`/`flcSource` stand for the `lookup_fla(...)`
result, `motorEffLookup` for `get_motor_efficiency(...)`, and `profile`
for `get_duty_profile(...)`. -/
def process_load (eq : Equipment) (dp : DutyPoint) (motor_standard : String)
    (voltage frequency : ℝ) (flcTable : ℝ) (flcSource : String)
    (motorEffLookup : ℝ) (profile : DutyProfile) : ProcessedLoad :=
  let tag := eq.tag.getD (eq.equipment_tag.getD "")
  let eq_type := eq.equipment_type.getD (extract_equipment_type tag)
  let installed_kw := eq.power_kw.getD (eq.power_kW.getD (eq.installed_kw.getD 0))
  let feeder_type := eq.feeder_type.getD "DOL"
  let process_unit := eq.process_unit_type.getD ""
  let poles := eq.motor_poles.getD 4
  let efficiency_class :=
    eq.efficiency_class.getD (if motor_standard = "IEC" then "IE3" else "NEMA-PREMIUM")
  let efficiency_pct := resolve_efficiency_pct eq motorEffLookup
  let fla_nameplate := resolve_fla_nameplate eq voltage efficiency_pct
  let lra := calc_lra flcTable 6.0
  let brake_kw := resolve_brake_kw eq_type installed_kw dp
  let absorbed_kw := calc_absorbed_kw brake_kw efficiency_pct
  let quantity_note := eq.quantity_note.getD ""
  let quantity := eq.quantity.getD 1
  let parsed := parseDiversityFromQuantityNote quantity_note
  let diversity_factor : ℝ :=
    if quantity_note = "" ∧ quantity > 1 then 1.0 else ((parsed.1 : ℚ) : ℝ)
  let running_kw := calc_running_kw absorbed_kw profile.load_factor
  let demand_kw := calc_demand_kw running_kw diversity_factor
  let daily_kwh := calc_daily_kwh running_kw profile.running_hours_per_day
  let pf := eq.pf.getD 0.85
  { equipment_tag := tag
    description := eq.description.getD ""
    process_unit_type := process_unit
    area := eq.area.getD 100
    equipment_type := eq_type
    rated_kw := installed_kw
    installed_kw := installed_kw
    voltage_v := voltage
    phases := 3
    frequency_hz := frequency
    motor_poles := poles
    efficiency_pct := efficiency_pct
    pf := pf
    efficiency_class := efficiency_class
    service_factor := if motor_standard = "IEC" then 1.0 else 1.15
    flc_table_a := roundR 1 flcTable
    fla_nameplate_a := roundR 1 fla_nameplate
    fla := roundR 1 flcTable
    lra := roundR 1 lra
    lra_multiplier := 6.0
    fla_source := flcSource
    flc_provenance :=
      { source :=
          if containsSub "table".data (strLower flcSource).data
              || containsSub "nec".data (strLower flcSource).data
              || containsSub "iec".data (strLower flcSource).data
          then "table" else "calculated"
        selection_stage := "preliminary_generic"
        verified := false
        notes := "From " ++ flcSource }
    feeder_type := feeder_type
    brake_kw := if brake_kw ≠ 0 then some (roundR 2 brake_kw) else none
    absorbed_kw := absorbed_kw
    duty_cycle := profile.duty_cycle
    running_hours_per_day := profile.running_hours_per_day
    load_factor := profile.load_factor
    diversity_factor := diversity_factor
    quantity := quantity
    quantity_note := if quantity_note ≠ "" then quantity_note else toString quantity ++ "W"
    running_kw := running_kw
    demand_kw := demand_kw
    daily_kwh := daily_kwh
    mcc_panel := eq.mcc_panel.getD ("MCC-" ++ toString (eq.area.getD 100))
    duty_point_source := dp.source }

theorem roundR_intValue (z : ℤ) (n : ℕ) (x : ℝ) (h : x * 10 ^ n = (z : ℝ)) :
    roundR n x = (z : ℝ) / 10 ^ n := by
  rw [roundR, h, rndHEr_intCast]

/-- Equipment instance for the concrete C2 conjunct: nameplate FLA
supplied (42 A), table FLC parameter 100 A. -/
def eqC2 : Equipment :=
  { tag := some "100-P-01", power_kw := some 15, fla_nameplate_a := some 42 }

/-- An empty duty point (all keys absent). -/
def dpEmpty : DutyPoint := {}

/-- An arbitrary duty profile for concrete instances. -/
def profileDefault : DutyProfile :=
  { running_hours_per_day := 20, load_factor := 0.75, duty_cycle := "continuous" }

/-- **C2.** The load built by `process_load` carries `flc_table_a`
(rounded from the motor-standard table lookup result alone) and
`fla_nameplate_a` (rounded from the equipment's nameplate value, or the
`kW*1000/(sqrt(3)*V*eta*pf)` estimate when absent) as two independent
fields: each is a function of its own source only - changing the FLC
lookup result never changes `fla_nameplate_a`, and the supplied
nameplate value never changes `flc_table_a` - and on a concrete input
the two fields hold different values, so they are never forced equal. -/
theorem flc_fla_dual_fields_c2 :
    (∀ (eq : Equipment) (dp : DutyPoint) (ms : String) (voltage frequency : ℝ)
        (flcTable : ℝ) (flcSource : String) (me : ℝ) (prof : DutyProfile),
        (process_load eq dp ms voltage frequency flcTable flcSource me prof).flc_table_a
          = roundR 1 flcTable)
    ∧ (∀ (eq : Equipment) (dp : DutyPoint) (ms : String) (voltage frequency : ℝ)
        (flcTable : ℝ) (flcSource : String) (me : ℝ) (prof : DutyProfile),
        (process_load eq dp ms voltage frequency flcTable flcSource me prof).fla_nameplate_a
          = roundR 1 (resolve_fla_nameplate eq voltage (resolve_efficiency_pct eq me)))
    ∧ (∀ (eq : Equipment) (dp : DutyPoint) (ms : String) (voltage frequency : ℝ)
        (flcTable flcTable2 : ℝ) (flcSource flcSource2 : String) (me : ℝ)
        (prof : DutyProfile),
        (process_load eq dp ms voltage frequency flcTable flcSource me prof).fla_nameplate_a
          = (process_load eq dp ms voltage frequency flcTable2 flcSource2 me
              prof).fla_nameplate_a)
    ∧ (∀ (eq : Equipment) (dp : DutyPoint) (ms : String) (voltage frequency : ℝ)
        (flcTable : ℝ) (flcSource : String) (me : ℝ) (prof : DutyProfile)
        (x : Option ℝ),
        (process_load { eq with fla_nameplate_a := x } dp ms voltage frequency
            flcTable flcSource me prof).flc_table_a
          = (process_load eq dp ms voltage frequency flcTable flcSource me
              prof).flc_table_a)
    ∧ ((process_load eqC2 dpEmpty "IEC" 400 50 100 "IEC-60034" 93
          profileDefault).flc_table_a = 100
        ∧ (process_load eqC2 dpEmpty "IEC" 400 50 100 "IEC-60034" 93
            profileDefault).fla_nameplate_a = 42
        ∧ (100 : ℝ) ≠ 42) := by
  refine ⟨fun _ _ _ _ _ _ _ _ _ => rfl, fun _ _ _ _ _ _ _ _ _ => rfl,
    fun _ _ _ _ _ _ _ _ _ _ _ => rfl, fun _ _ _ _ _ _ _ _ _ _ => rfl, ?_, ?_, by norm_num⟩
  · show roundR 1 100 = 100
    rw [roundR_intValue 1000 1 100 (by norm_num)]
    norm_num
  · show roundR 1 (resolve_fla_nameplate eqC2 400 (resolve_efficiency_pct eqC2 93)) = 42
    have h42 : resolve_fla_nameplate eqC2 400 (resolve_efficiency_pct eqC2 93) = 42 := rfl
    rw [h42, roundR_intValue 420 1 42 (by norm_num)]
    norm_num

/-- Duty point supplying its own brake power, for the concrete C6
conjunct. -/
def dpBrake5 : DutyPoint := { brake_kw := some 5 }

/-- Duty point with pump flow/head/efficiency, for the concrete C6
conjunct. -/
def dpPump : DutyPoint :=
  { flow_m3h := some 500, head_m := some 30, pump_eff := some 0.75 }

/-- **C6.** Brake power is resolved in priority order: (1) the duty
point's `brake_kw` when present; (2) else the type-specific formula
when the duty point supplies truthy inputs (pump `rho*g*Q*H/eta`,
blower polytropic work, mixer volume x power density); (3) else
`rated_kw * 0.85`, a formula into which motor efficiency does not enter
(`resolve_brake_kw` takes no efficiency argument at all); and
`process_load`'s absorbed power is computed from exactly this resolved
value. -/
theorem brake_power_priority_c6 :
    (∀ (ty : String) (inst : ℝ) (dp : DutyPoint) (b : ℝ),
        dp.brake_kw = some b → resolve_brake_kw ty inst dp = b)
    ∧ (∀ (ty : String) (inst : ℝ) (dp : DutyPoint),
        dp.brake_kw = none → (ty = "P" ∨ ty = "PU") →
        dp.flow_m3h.getD 0 ≠ 0 → dp.head_m.getD 0 ≠ 0 →
        resolve_brake_kw ty inst dp
          = calc_pump_brake_kw (dp.flow_m3h.getD 0) (dp.head_m.getD 0) 1.0
              (dp.pump_eff.getD 0.70))
    ∧ (∀ (ty : String) (inst : ℝ) (dp : DutyPoint),
        dp.brake_kw = none → (ty = "B" ∨ ty = "BL") →
        dp.flow_nm3h.getD 0 ≠ 0 →
        resolve_brake_kw ty inst dp
          = calc_blower_brake_kw (dp.flow_nm3h.getD 0) (dp.p1_bar.getD 1.013)
              (dp.p2_bar.getD 1.6) 293 1.4 (dp.blower_eff.getD 0.70))
    ∧ (∀ (ty : String) (inst : ℝ) (dp : DutyPoint),
        dp.brake_kw = none → (ty = "AG" ∨ ty = "MX") →
        dp.volume_m3.getD 0 ≠ 0 →
        resolve_brake_kw ty inst dp
          = calc_mixer_brake_kw (dp.volume_m3.getD 0) (dp.w_per_m3.getD 8))
    ∧ (∀ (ty : String) (inst : ℝ) (dp : DutyPoint),
        brake_from_duty ty dp = none → resolve_brake_kw ty inst dp = inst * 0.85)
    ∧ (∀ (eq : Equipment) (dp : DutyPoint) (ms : String) (voltage frequency : ℝ)
        (flcTable : ℝ) (flcSource : String) (me : ℝ) (prof : DutyProfile),
        (process_load eq dp ms voltage frequency flcTable flcSource me prof).absorbed_kw
          = calc_absorbed_kw
              (resolve_brake_kw
                (eq.equipment_type.getD
                  (extract_equipment_type (eq.tag.getD (eq.equipment_tag.getD ""))))
                (eq.power_kw.getD (eq.power_kW.getD (eq.installed_kw.getD 0))) dp)
              (resolve_efficiency_pct eq me))
    ∧ (resolve_brake_kw "P" 10 dpBrake5 = 5
        ∧ resolve_brake_kw "SC" 10 dpEmpty = 10 * 0.85
        ∧ resolve_brake_kw "P" 10 dpPump = calc_pump_brake_kw 500 30 1.0 0.75) := by
  refine ⟨?_, ?_, ?_, ?_, ?_, fun _ _ _ _ _ _ _ _ _ => rfl, rfl, rfl, ?_⟩
  · intro ty inst dp b h
    simp [resolve_brake_kw, brake_from_duty, h]
  · intro ty inst dp hb hty hf hh
    rcases hty with rfl | rfl <;>
      simp [resolve_brake_kw, brake_from_duty, hb, hf, hh]
  · intro ty inst dp hb hty hf
    rcases hty with rfl | rfl <;>
      simp [resolve_brake_kw, brake_from_duty, hb, hf]
  · intro ty inst dp hb hty hv
    rcases hty with rfl | rfl <;>
      simp [resolve_brake_kw, brake_from_duty, hb, hv]
  · intro ty inst dp h
    simp [resolve_brake_kw, h]
  · show resolve_brake_kw "P" 10 dpPump = calc_pump_brake_kw 500 30 1.0 0.75
    simp [resolve_brake_kw, brake_from_duty, dpPump]

end

end LoadList
